import Mathlib

/-!
Shallow embedding of the pypixxlib hardware I/O layer
(src/third_party/pypixxlib/pypixxlib/_libdpx.py, dpxDevice.py, analogIn.py
and src/third_party/pypixxlib-1.3.0/pypixxlib/analogOut.py).

The Python layer is a set of thin ctypes wrappers over a closed vendor DLL.
Everything the wrappers themselves compute (string-keyed constant lookups,
uppercase normalisation, ctypes argument marshalling, unconditional
forwarding) is translated directly from the source.  The registers the DLL
keeps (a host-local register cache mirroring device registers, pushed and
pulled by DPxWriteRegCache / DPxUpdateRegCache) are not in the repository;
those parts are modelled from the spec and from the docstrings in the
source, and are marked as such on each definition.
-/

/-- Marshalling of a Python int through ctypes.c_uint: the value is reduced
modulo 2 to the 32. -/
def c_uint (n : Nat) : Nat := n % 2 ^ 32

/-- Marshalling of a Python int through ctypes.c_ushort: the value is
reduced modulo 2 to the 16. -/
def c_ushort (n : Nat) : Nat := n % 2 ^ 16

/-- Translated from the api_constants dict, _libdpx.py lines 8261-8311.
Python dict string lookup is embedded as association-list lookup; all keys
are distinct, so the lookup agrees with the dict. -/
def api_constants : List (String × Int) :=
  [("AUTO", -1),
   ("CRYSTALEYES", 0x10),
   ("C48", 3),
   ("C36D", 7),
   ("C24", 0),
   ("DEPTH Q", 0x40),
   ("DIFF", 1),
   ("DPX_REG_SPACE", 480),
   ("GREY3X", 0x90),
   ("GND", 0),
   ("HZ", 0),
   ("LEFT", 0x10),
   ("LINE", 2),
   ("LR", 0),
   ("L48", 1),
   ("L48D", 5),
   ("M16", 2),
   ("M16O", 2),
   ("MIC", 1),
   ("MONO", 0),
   ("M16D", 6),
   ("NANO", 32),
   ("NVIDIA", 0x20),
   ("PPXREG_VID_SEQ_CSR_PGRM_RGB", 0),
   ("QUAD4X", 0x20),
   ("QUAD12X", 0x50),
   ("RAW", -2),
   ("RB24", 8),
   ("RB3D", 0x10),
   ("RGB", 0),
   ("RGB240", 0x30),
   ("RGB180", 0x40),
   ("REF0", 2),
   ("REF1", 3),
   ("RIGHT", 0x20),
   ("STEREO", 0x30),
   ("UNCONFIGURED", 0),
   ("DATAPIXX", 10),
   ("VIEWPIXX", 20),
   ("VIEWPIXX3D", 20),
   ("VIEWPIXXEEG", 20),
   ("PROPIXXCTRL", 30),
   ("PROPIXX", 40),
   ("DATAPIXX2", 50),
   ("TRACKPIXX", 60),
   ("TRACKPIXX_C", 70),
   ("TRACKPIXX_B", 80),
   ("VIDEO", 16)]

/-- Translated from the rate_constants dict, _libdpx.py lines 8318-8321. -/
def rate_constants : List (Int × String) :=
  [(0x00, "HZ"),
   (0x10, "VIDEO"),
   (0x20, "NANO")]

/-- DAC subsystem register words, as named by the wrapper functions of
_libdpx.py (buffBaseAddr, buffReadAddr, buffSize, schedOnset, sched rate
value and unit code, schedCount, countdown flag, and the schedule running
status bit). -/
structure DacRegs where
  buffBaseAddr : Nat
  buffReadAddr : Nat
  buffSize : Nat
  schedOnset : Nat
  schedRateValue : Nat
  schedRateCode : Int
  schedCount : Nat
  schedCountdown : Bool
  running : Bool
  deriving Repr, DecidableEq

/-- Global DLL state: the currently selected device persona (a module-level
global in the DLL, driven by DPxSelectDevice), the host-local register cache,
the device-side registers, and logs of the raw arguments forwarded to the
DLL entry points that the wrappers call.  The cache/device split is
modelled from the spec: section 4.1 says register reads are served from the
host-local cache unless it is refreshed, and the DPxUpdateRegCache
docstring says it writes the cache to the device and then reads the device
registers back into the cache. -/
structure Sys where
  selected : Int
  cache : DacRegs
  device : DacRegs
  adcChanRefWrites : List (Int × Int)
  startCmds : Nat
  ramWrites : List (Nat × Nat)
  ramReads : List (Nat × Nat)
  deriving Repr, DecidableEq

/-- All-zero register file, the reset state of the register mirror. -/
def dacRegsInit : DacRegs :=
  { buffBaseAddr := 0, buffReadAddr := 0, buffSize := 0, schedOnset := 0,
    schedRateValue := 0, schedRateCode := 0, schedCount := 0,
    schedCountdown := false, running := false }

/-- Initial DLL state: nothing selected beyond persona code 0, reset
registers, no forwarded calls logged. -/
def sysInit : Sys :=
  { selected := 0, cache := dacRegsInit, device := dacRegsInit,
    adcChanRefWrites := [], startCmds := 0, ramWrites := [], ramReads := [] }

/-- Embedding of the Python string method upper(), applied in the source to
plain ASCII constant names: every character is uppercased. -/
def pyUpper (s : String) : String := String.mk (s.data.map Char.toUpper)

/-- Embedding of the Python call replace applied with arguments a space and
the empty string, as in DPxSelectDevice: every space character is removed. -/
def pyStripSpaces (s : String) : String :=
  String.mk (s.data.filter (fun c => c ≠ ' '))

/-- Translated from DPxSelectDevice, _libdpx.py lines 406-425: the wrapper
uppercases the persona name, strips spaces, looks it up in api_constants
(a Python dict lookup, raising KeyError when absent, hence Option) and
hands the code to the DLL.  The DLL keeping the code as the currently
selected persona is modelled from the spec (DeviceSelector, section 4.2). -/
def DPxSelectDevice (devsel : String) (s : Sys) : Option Sys :=
  (api_constants.lookup (pyStripSpaces (pyUpper devsel))).map
    (fun code => { s with selected := code })

/-- Modelled from the spec (section 4.1) and the DPxWriteRegCache docstring:
writing the register cache pushes the host-side configuration words to the
device; the running status bit is device-owned and is not written. -/
def pushRegs (cache device : DacRegs) : DacRegs :=
  { cache with running := device.running }

/-- Translated from DPxUpdateRegCache, _libdpx.py lines 76-87, whose
docstring reads: DPxWriteRegCache, then readback registers over USB into
local cache.  The push/pull register semantics of the closed DLL is
modelled from the spec (section 4.1): the write pushes the cached
configuration to the device, the readback copies the device registers
(including the device-owned running status bit) into the host cache. -/
def DPxUpdateRegCache (s : Sys) : Sys :=
  let d := pushRegs s.cache s.device
  { s with device := d, cache := d }

/-- Translated from DpxDevice.updateRegisterCache, dpxDevice.py lines
141-145: it calls DPxSelectDevice on its own device type and then
DPxUpdateRegCache.  Nothing records or restores the previously selected
persona. -/
def DpxDevice.updateRegisterCache (device_type : String) (s : Sys) : Option Sys :=
  (DPxSelectDevice device_type s).map DPxUpdateRegCache

/-- Translated from DPxSetDacBuffBaseAddr, _libdpx.py lines 1209-1227: the
wrapper forwards the address through ctypes.c_uint with no validation.
The DLL storing it in the cached base-address register is modelled from
the spec (section 4.1). -/
def DPxSetDacBuffBaseAddr (buffBaseAddr : Nat) (s : Sys) : Sys :=
  { s with cache := { s.cache with buffBaseAddr := c_uint buffBaseAddr } }

/-- Translated from DPxSetDacBuffReadAddr, _libdpx.py lines 1250-1268:
forwards the read address through ctypes.c_uint with no validation. -/
def DPxSetDacBuffReadAddr (buffReadAddr : Nat) (s : Sys) : Sys :=
  { s with cache := { s.cache with buffReadAddr := c_uint buffReadAddr } }

/-- Translated from DPxSetDacBuffSize, _libdpx.py lines 1292-1309: forwards
the size through ctypes.c_uint with no validation. -/
def DPxSetDacBuffSize (buffSize : Nat) (s : Sys) : Sys :=
  { s with cache := { s.cache with buffSize := c_uint buffSize } }

/-- Translated from DPxSetDacBuff, _libdpx.py lines 1334-1353, whose
docstring reads: This function is a shortcut which assigns
Size/BaseAddr/ReadAddr.  The read address a schedule starts from is the
buffer base, so the shortcut assigns all three registers from its two
arguments (modelled from the docstring in the source; the DLL itself is
closed). -/
def DPxSetDacBuff (buffAddr buffSize : Nat) (s : Sys) : Sys :=
  { s with cache := { s.cache with
      buffBaseAddr := c_uint buffAddr,
      buffReadAddr := c_uint buffAddr,
      buffSize := c_uint buffSize } }

/-- Translated from DPxSetDacSchedRate, _libdpx.py lines 1397-1420: the
wrapper body is setDacSchedRate(rate, api_constants[unit.upper()]).  The
dict lookup on the uppercased unit string happens while the arguments of
the foreign call are evaluated, so an absent key raises KeyError (None
here) before the DLL is entered; on a present key the rate goes through
ctypes.c_uint and the code through ctypes.c_int into the cached rate
registers (register storage modelled from the spec, section 4.1). -/
def DPxSetDacSchedRate (rate : Nat) (unit : String) (s : Sys) : Option Sys :=
  (api_constants.lookup (pyUpper unit)).map
    (fun code => { s with cache := { s.cache with
        schedRateValue := c_uint rate, schedRateCode := code } })

/-- Translated from DPxGetDacSchedRate, _libdpx.py lines 1425-1442: returns
the pair of the cached rate value and rate_constants[unit code] (a Python
dict lookup, hence Option on the unit). -/
def DPxGetDacSchedRate (s : Sys) : Nat × Option String :=
  (s.cache.schedRateValue, rate_constants.lookup s.cache.schedRateCode)

/-- Translated from DPxSetDacSchedCount, _libdpx.py lines 1449-1462:
forwards the count through ctypes.c_uint with no validation. -/
def DPxSetDacSchedCount (count : Nat) (s : Sys) : Sys :=
  { s with cache := { s.cache with schedCount := c_uint count } }

/-- Translated from DPxEnableDacSchedCountdown, _libdpx.py lines 1487-1498:
sets the cached countdown mode bit. -/
def DPxEnableDacSchedCountdown (s : Sys) : Sys :=
  { s with cache := { s.cache with schedCountdown := true } }

/-- Translated from DPxStartDacSched, _libdpx.py lines 1560-1571: the
wrapper calls the DLL start entry point unconditionally; no configuration
is examined and no error can be returned.  The forwarded start command is
logged and the device-side running bit set (the command reaching the
device is modelled from the spec, section 4.5). -/
def DPxStartDacSched (s : Sys) : Sys :=
  { s with startCmds := s.startCmds + 1,
           device := { s.device with running := true } }

/-- Translated from DPxIsDacSchedRunning, _libdpx.py lines 1590-1605: the
DLL serves the running status from the host-local register cache (modelled
from the spec, section 4.1: reads come from cache, not device, unless the
cache was refreshed), returning a C int that is non-zero when running. -/
def DPxIsDacSchedRunning (s : Sys) : Int :=
  if s.cache.running then 1 else 0

/-- Translated from DPxSetAdcBuffChanRef, _libdpx.py lines 1694-1716: the
wrapper body is setAdcBuffChanRef(channel, api_constants[reference.upper()]).
The dict lookup raises KeyError (None here) for an absent key before the
DLL is entered; otherwise the raw channel int and the reference code are
forwarded to the DLL unchecked (the forwarded pair is logged). -/
def DPxSetAdcBuffChanRef (channel : Int) (reference : String) (s : Sys) : Option Sys :=
  (api_constants.lookup (pyUpper reference)).map
    (fun code => { s with adcChanRefWrites := s.adcChanRefWrites ++ [(channel, code)] })

/-- Translated from DPxWriteRam, _libdpx.py lines 140-181, list branch: the
wrapper computes int_size = sizeof(c_ushort) = 2, item_count = len(int_list),
total_size = int_size * item_count, and calls
WriteRam(c_uint(address), c_ushort(total_size), packed_data).  The pair of
marshalled scalars handed to the DLL is logged: the address reduced modulo
2 to the 32 and the byte length reduced modulo 2 to the 16. -/
def DPxWriteRam (address : Nat) (int_list : List Nat) (s : Sys) : Sys :=
  let int_size : Nat := 2
  let item_count : Nat := int_list.length
  let total_size : Nat := int_size * item_count
  { s with ramWrites := s.ramWrites ++ [(c_uint address, c_ushort total_size)] }

/-- Translated from DPxReadRam, _libdpx.py lines 91-135: the wrapper builds
int_list = [0] * length, computes total_size = 2 * len(int_list), and calls
ReadRam(c_uint(address), c_ushort(total_size), packed_data).  The pair of
marshalled scalars handed to the DLL is logged. -/
def DPxReadRam (address length : Nat) (s : Sys) : Sys :=
  let int_list : List Nat := List.replicate length 0
  let int_size : Nat := 2
  let item_count : Nat := int_list.length
  let total_size : Nat := int_size * item_count
  { s with ramReads := s.ramReads ++ [(c_uint address, c_ushort total_size)] }

/-- Translated from AnalogOut.setBaseAddress,
pypixxlib-1.3.0/pypixxlib/analogOut.py lines 206-219: the method body is a
single call DPxSetDacBuffBaseAddr(address), with no validation of any
kind. -/
def AnalogOut.setBaseAddress (address : Nat) (s : Sys) : Sys :=
  DPxSetDacBuffBaseAddr address s

/-- Translated from AnalogOut.setBufferSize,
pypixxlib-1.3.0/pypixxlib/analogOut.py lines 281-295: a single call
DPxSetDacBuffSize(buffer_size), with no validation. -/
def AnalogOut.setBufferSize (buffer_size : Nat) (s : Sys) : Sys :=
  DPxSetDacBuffSize buffer_size s

/-- Translated from AnalogOut.startSchedule,
pypixxlib-1.3.0/pypixxlib/analogOut.py lines 483-495: a single
unconditional call DPxStartDacSched(). -/
def AnalogOut.startSchedule (s : Sys) : Sys :=
  DPxStartDacSched s

/-- Translated from AnalogOut.isScheduleRunning,
pypixxlib-1.3.0/pypixxlib/analogOut.py lines 515-529: returns False when
DPxIsDacSchedRunning() == 0 and True otherwise. -/
def AnalogOut.isScheduleRunning (s : Sys) : Bool :=
  if DPxIsDacSchedRunning s == 0 then false else true

/-- Translated from AnalogIn.setChannelReference, analogIn.py lines 79-98:
a single call DPxSetAdcBuffChanRef(channel, reference), with no channel
validation. -/
def AnalogIn.setChannelReference (channel : Int) (reference : String) (s : Sys) :
    Option Sys :=
  DPxSetAdcBuffChanRef channel reference s

/-- Modelled from the spec: one hardware tick of the autonomous DAC
schedule engine (section 4.5, Running to Idle autonomous, and the glossary
entry Countdown: a sample counter decrements to zero and the device
autonomously halts).  With countdown enabled and the schedule running, the
device decrements its counter each tick and clears its running bit when the
counter reaches zero; it does not notify the host, so the host-local
register cache is untouched. -/
def dacTick (s : Sys) : Sys :=
  if s.device.running && s.device.schedCountdown then
    if s.device.schedCount ≤ 1 then
      { s with device := { s.device with schedCount := 0, running := false } }
    else
      { s with device := { s.device with schedCount := s.device.schedCount - 1 } }
  else
    s

/-- Iterated hardware ticks: dacTicks n applies dacTick n times. -/
def dacTicks : Nat → Sys → Sys
  | 0, s => s
  | n + 1, s => dacTicks n (dacTick s)

/-- Countdown scenario state, built with the API calls of the source: set
the schedule count to 3, enable countdown, push and pull the register cache
(DPxUpdateRegCache) so the device holds the configuration, then start the
schedule.  Used by the countdown-claim theorems. -/
def countdownRun : Sys :=
  DPxStartDacSched
    (DPxUpdateRegCache (DPxEnableDacSchedCountdown (DPxSetDacSchedCount 3 sysInit)))

/-- A single step either thread can take on the shared link, as performed
by the methods of dpxDevice.py: select a persona (DPxSelectDevice) or
operate on whatever persona the link currently has selected (for example
DPxUpdateRegCache inside DpxDevice.updateRegisterCache). -/
inductive LinkOp
  | select (p : Int)
  | operate
  deriving Repr, DecidableEq

/-- Instruction stream of one thread running a device-scoped call of
dpxDevice.py (DpxDevice.updateRegisterCache, lines 141-145, or
DpxDevice.setActive, lines 78-82): first select the persona, then operate.
The module takes no lock and imports no threading primitive, so nothing
prevents the steps of two threads from interleaving between the select and
the operate. -/
def threadProg (t : Bool) (p : Int) : List (Bool × LinkOp) :=
  [(t, LinkOp.select p), (t, LinkOp.operate)]

/-- Interleaving of two instruction streams: zs is some merge of xs and ys
that keeps the internal order of each. -/
inductive Interleave : List (Bool × LinkOp) → List (Bool × LinkOp) →
    List (Bool × LinkOp) → Prop
  | nil : Interleave [] [] []
  | left {x xs ys zs} : Interleave xs ys zs → Interleave (x :: xs) ys (x :: zs)
  | right {y xs ys zs} : Interleave xs ys zs → Interleave xs (y :: ys) (y :: zs)

/-- Execution of an interleaved schedule against the single shared
selected-persona register of the link (the DLL global that DPxSelectDevice
writes): a select step overwrites the selection, an operate step is logged
together with the persona selected at the moment it runs. -/
def runSched : List (Bool × LinkOp) → Int → List (Bool × Int)
  | [], _ => []
  | (_, LinkOp.select p) :: rest, _ => runSched rest p
  | (t, LinkOp.operate) :: rest, sel => (t, sel) :: runSched rest sel

/-- C3: the claim says an odd address makes setBase fail with
InvalidAddress, detected host-side before any hardware write, leaving prior
cached state unchanged.  Counterexample: AnalogOut.setBaseAddress 3 does
not fail, writes the odd address 3 into the cached base-address register,
and changes the prior state. -/
theorem C3_counterexample :
    3 % 2 = 1
      ∧ (AnalogOut.setBaseAddress 3 sysInit).cache.buffBaseAddr = 3
      ∧ AnalogOut.setBaseAddress 3 sysInit ≠ sysInit := by
  refine ⟨rfl, rfl, ?_⟩
  decide

/-- C3 amended: setBaseAddress and setBufferSize perform no validation at
all; every address and size, odd or not, bounded or not, is forwarded
through ctypes.c_uint (reduced modulo 2 to the 32) straight into the
register cache, overwriting the prior value. -/
theorem C3_no_validation (addr size : Nat) (s : Sys) :
    AnalogOut.setBaseAddress addr s
        = { s with cache := { s.cache with buffBaseAddr := addr % 2 ^ 32 } }
      ∧ AnalogOut.setBufferSize size s
        = { s with cache := { s.cache with buffSize := size % 2 ^ 32 } } :=
  ⟨rfl, rfl⟩

/-- C4: the claim says start() without a configured buffer fails
NotConfigured, issues no hardware start command and leaves the state
unchanged.  Counterexample: on the unconfigured initial state (buffer size
0), AnalogOut.startSchedule issues one hardware start command and sets the
device running. -/
theorem C4_counterexample :
    sysInit.cache.buffSize = 0
      ∧ (AnalogOut.startSchedule sysInit).startCmds = 1
      ∧ (AnalogOut.startSchedule sysInit).device.running = true :=
  ⟨rfl, rfl, rfl⟩

/-- C4 amended: startSchedule examines no configuration whatsoever; on
every state, configured or not, it issues exactly one hardware start
command and sets the device running bit. -/
theorem C4_start_unconditional (s : Sys) :
    AnalogOut.startSchedule s
      = { s with startCmds := s.startCmds + 1,
                 device := { s.device with running := true } } :=
  rfl

/-- C6: the claim says setChannelReference(20, Ground) fails InvalidChannel
when the buffered-channel range is 0 to 15.  Counterexample: the call with
channel 20 and reference gnd succeeds and forwards the pair (20, 0) to the
device. -/
theorem C6_counterexample :
    AnalogIn.setChannelReference 20 "gnd" sysInit
      = some { sysInit with adcChanRefWrites := [(20, 0)] } := by
  decide

/-- C6 amended: setChannelReference performs no channel validation; for
every integer channel (out-of-range ones included) and every reference
string whose uppercased form is a key of api_constants, the call succeeds
and forwards the raw channel together with the reference code to the
device. -/
theorem C6_no_channel_validation (channel : Int) (reference : String) (code : Int)
    (s : Sys) (h : api_constants.lookup (pyUpper reference) = some code) :
    AnalogIn.setChannelReference channel reference s
      = some { s with adcChanRefWrites := s.adcChanRefWrites ++ [(channel, code)] } := by
  simp [AnalogIn.setChannelReference, DPxSetAdcBuffChanRef, h]

/-- C6 witness: instantiation of the amended theorem at channel 20 and
reference gnd. -/
theorem C6_no_channel_validation_witness :
    api_constants.lookup (pyUpper "gnd") = some 0
      ∧ AnalogIn.setChannelReference 20 "gnd" sysInit
        = some { sysInit with
            adcChanRefWrites := sysInit.adcChanRefWrites ++ [(20, 0)] } :=
  ⟨by decide, C6_no_channel_validation 20 "gnd" 0 sysInit (by decide)⟩

/-- C7: the claim says setBuffer(addr, bytes) produces exactly the state of
setBase(addr) followed by setSize(bytes), changing no other buffer field.
Counterexample: from a state whose read cursor register holds 6,
DPxSetDacBuff also rewrites the read cursor to the new base, while the
setBase-setSize composition leaves it at 6. -/
theorem C7_counterexample :
    DPxSetDacBuff 4096 8192 (DPxSetDacBuffReadAddr 6 sysInit)
      ≠ DPxSetDacBuffSize 8192
          (DPxSetDacBuffBaseAddr 4096 (DPxSetDacBuffReadAddr 6 sysInit)) := by
  decide

/-- C7 amended: DPxSetDacBuff addr size equals the composition setBase,
then setReadAddr to the same base, then setSize: the shortcut additionally
resets the read cursor to the buffer base. -/
theorem C7_shortcut_equiv (addr size : Nat) (s : Sys) :
    DPxSetDacBuff addr size s
      = DPxSetDacBuffSize size
          (DPxSetDacBuffReadAddr addr (DPxSetDacBuffBaseAddr addr s)) :=
  rfl

/-- C10: whenever the total byte size 2 times the item count reaches 65536,
the length handed to the DLL by DPxWriteRam and DPxReadRam is reduced
modulo 2 to the 16 (it is marshalled through ctypes.c_ushort), so strictly
fewer bytes than requested are transferred, while the address goes through
ctypes.c_uint and is forwarded unchanged for any address below 2 to the
32. -/
theorem C10_ram_length_truncation (address n : Nat) (int_list : List Nat) (s : Sys)
    (ha : address < 2 ^ 32) (hl : 2 ^ 16 ≤ 2 * int_list.length)
    (hn : 2 ^ 16 ≤ 2 * n) :
    (DPxWriteRam address int_list s).ramWrites
        = s.ramWrites ++ [(address, 2 * int_list.length % 2 ^ 16)]
      ∧ 2 * int_list.length % 2 ^ 16 < 2 * int_list.length
      ∧ (DPxReadRam address n s).ramReads
        = s.ramReads ++ [(address, 2 * n % 2 ^ 16)]
      ∧ 2 * n % 2 ^ 16 < 2 * n := by
  refine ⟨?_, ?_, ?_, ?_⟩
  · simp only [DPxWriteRam, c_uint, c_ushort]
    rw [Nat.mod_eq_of_lt ha]
  · exact lt_of_lt_of_le (Nat.mod_lt _ (by norm_num)) hl
  · simp only [DPxReadRam, c_uint, c_ushort, List.length_replicate]
    rw [Nat.mod_eq_of_lt ha]
  · exact lt_of_lt_of_le (Nat.mod_lt _ (by norm_num)) hn

/-- C10 witness: instantiation at address 42 and a 32769-item list, whose
65538 bytes are truncated to 2 by the 16-bit length marshalling. -/
theorem C10_ram_length_truncation_witness :
    (42 : Nat) < 2 ^ 32
      ∧ 2 ^ 16 ≤ 2 * (List.replicate 32769 (0 : Nat)).length
      ∧ ((DPxWriteRam 42 (List.replicate 32769 (0 : Nat)) sysInit).ramWrites
            = sysInit.ramWrites
                ++ [(42, 2 * (List.replicate 32769 (0 : Nat)).length % 2 ^ 16)]
          ∧ 2 * (List.replicate 32769 (0 : Nat)).length % 2 ^ 16
              < 2 * (List.replicate 32769 (0 : Nat)).length
          ∧ (DPxReadRam 42 32769 sysInit).ramReads
              = sysInit.ramReads ++ [(42, 2 * 32769 % 2 ^ 16)]
          ∧ 2 * 32769 % 2 ^ 16 < 2 * 32769) :=
  ⟨by decide, by simp only [List.length_replicate]; decide,
   C10_ram_length_truncation 42 32769 (List.replicate 32769 (0 : Nat)) sysInit
     (by decide) (by simp only [List.length_replicate]; decide) (by decide)⟩

/-- C1: the claim says setRate then getRate round-trips the exact unit
token passed in.  Counterexample: setting the rate with unit token Hz in
mixed case reads back the canonical uppercase token HZ, not the token that
was passed. -/
theorem C1_counterexample :
    (DPxSetDacSchedRate 1000 "Hz" sysInit).map DPxGetDacSchedRate
      ≠ some (1000, some "Hz") := by
  decide

/-- C1 amended: for every rate below 2 to the 32 and every unit token whose
uppercased form is HZ, VIDEO or NANO, setRate then getRate returns exactly
the rate that was set together with the uppercased canonical form of the
token (the unit class is never converted, but the token is uppercased). -/
theorem C1_round_trip_uppercase (rate : Nat) (unit : String) (s : Sys)
    (hr : rate < 2 ^ 32)
    (hu : pyUpper unit = "HZ" ∨ pyUpper unit = "VIDEO" ∨ pyUpper unit = "NANO") :
    (DPxSetDacSchedRate rate unit s).map DPxGetDacSchedRate
      = some (rate, some (pyUpper unit)) := by
  have h1 : api_constants.lookup "HZ" = some 0 := by decide
  have h2 : api_constants.lookup "VIDEO" = some 16 := by decide
  have h3 : api_constants.lookup "NANO" = some 32 := by decide
  have g1 : rate_constants.lookup 0 = some "HZ" := by decide
  have g2 : rate_constants.lookup 16 = some "VIDEO" := by decide
  have g3 : rate_constants.lookup 32 = some "NANO" := by decide
  have hr32 : c_uint rate = rate := by
    unfold c_uint
    exact Nat.mod_eq_of_lt hr
  rcases hu with h | h | h <;>
    simp [DPxSetDacSchedRate, DPxGetDacSchedRate, h, h1, h2, h3, g1, g2, g3, hr32]

/-- C1 witness: instantiation of the amended round-trip at rate 1000 and
unit token hz. -/
theorem C1_round_trip_uppercase_witness :
    1000 < 2 ^ 32
      ∧ (pyUpper "hz" = "HZ" ∨ pyUpper "hz" = "VIDEO" ∨ pyUpper "hz" = "NANO")
      ∧ (DPxSetDacSchedRate 1000 "hz" sysInit).map DPxGetDacSchedRate
          = some (1000, some (pyUpper "hz")) :=
  ⟨by decide, Or.inl (by decide),
   C1_round_trip_uppercase 1000 "hz" sysInit (by decide) (Or.inl (by decide))⟩

/-- C2: the claim says the select-persona-then-operate helper restores the
persona selected immediately before the call on every exit path.
Counterexample: with persona code 10 (DATAPIXX) selected, running
updateRegisterCache of a PROPIXX device leaves persona code 40 (PROPIXX)
selected on the normal return path; the prior selection is not restored. -/
theorem C2_counterexample :
    (DpxDevice.updateRegisterCache "PROPIXX" { sysInit with selected := 10 }).map
        Sys.selected = some 40
      ∧ (40 : Int) ≠ 10 := by
  refine ⟨?_, by decide⟩
  decide

/-- C2 amended: updateRegisterCache selects its own device persona and
leaves it selected on exit: whatever persona was selected before the call,
afterwards the selected persona is the code of the owning device type. -/
theorem C2_leaves_own_persona_selected (device_type : String) (code : Int) (s : Sys)
    (h : api_constants.lookup (pyStripSpaces (pyUpper device_type)) = some code) :
    (DpxDevice.updateRegisterCache device_type s).map Sys.selected = some code := by
  simp [DpxDevice.updateRegisterCache, DPxSelectDevice, DPxUpdateRegCache, h]

/-- C2 witness: instantiation of the amended claim for a PROPIXX device
running from a state with persona code 10 selected. -/
theorem C2_leaves_own_persona_selected_witness :
    api_constants.lookup (pyStripSpaces (pyUpper "PROPIXX")) = some 40
      ∧ (DpxDevice.updateRegisterCache "PROPIXX"
            { sysInit with selected := 10 }).map Sys.selected = some 40 :=
  ⟨by decide,
   C2_leaves_own_persona_selected "PROPIXX" 40 { sysInit with selected := 10 }
     (by decide)⟩

/-- C9: the claim identifies the strings whose uppercased form is missing
from api_constants with the strings that are not case-variants of hz,
video, nano.  Counterexample: gnd is not a case-variant of any rate unit,
yet its uppercased form GND is a key of the table, so DPxSetDacSchedRate
raises no KeyError and silently forwards unit code 0 (the HZ code) to the
link. -/
theorem C9_counterexample :
    ¬(pyUpper "gnd" = "HZ" ∨ pyUpper "gnd" = "VIDEO" ∨ pyUpper "gnd" = "NANO")
      ∧ api_constants.lookup (pyUpper "gnd") = some 0
      ∧ DPxSetDacSchedRate 5 "gnd" sysInit
          = some { sysInit with cache := { sysInit.cache with
              schedRateValue := 5, schedRateCode := 0 } } := by
  decide

/-- C9 amended: for every string whose uppercased form is not a key of
api_constants, DPxSetDacSchedRate raises a Python KeyError while its
arguments are evaluated, before the DLL (and hence any link I/O) is
entered, instead of returning an OutOfRange result; the same dict lookup
governs the reference strings of DPxSetAdcBuffChanRef.  The key set is the
whole api_constants table, which is far larger than the three rate-unit
names, so unrelated keys such as GND are accepted silently. -/
theorem C9_keyerror_before_link_io (unit : String) (rate : Nat) (channel : Int)
    (s : Sys) (h : api_constants.lookup (pyUpper unit) = none) :
    DPxSetDacSchedRate rate unit s = none
      ∧ DPxSetAdcBuffChanRef channel unit s = none := by
  simp [DPxSetDacSchedRate, DPxSetAdcBuffChanRef, h]

/-- C9 witness: instantiation of the KeyError behaviour at the unrecognized
unit string foo. -/
theorem C9_keyerror_before_link_io_witness :
    api_constants.lookup (pyUpper "foo") = none
      ∧ (DPxSetDacSchedRate 5 "foo" sysInit = none
          ∧ DPxSetAdcBuffChanRef 3 "foo" sysInit = none) :=
  ⟨by decide, C9_keyerror_before_link_io "foo" 5 3 sysInit (by decide)⟩

/-- Helper: with countdown enabled, a running schedule whose device counter
holds m + 1 has halted itself after m + 1 hardware ticks. -/
theorem dacTicks_halt : ∀ (m : Nat) (s : Sys), s.device.running = true →
    s.device.schedCountdown = true → s.device.schedCount = m + 1 →
    (dacTicks (m + 1) s).device.running = false
  | 0, s, hr, hc, hn => by
      simp [dacTicks, dacTick, hr, hc, hn]
  | m + 1, s, hr, hc, hn => by
      have hcond : ¬s.device.schedCount ≤ 1 := by omega
      have hd : dacTick s
          = { s with device := { s.device with schedCount := m + 1 } } := by
        simp [dacTick, hr, hc, hcond, hn]
      have h2 : dacTicks (m + 1 + 1) s = dacTicks (m + 1) (dacTick s) := rfl
      rw [h2, hd]
      exact dacTicks_halt m _ hr hc rfl

/-- C5 counterexample: the countdown scenario with count 3.  After the
start command and a register-cache refresh, isScheduleRunning is true;
after the 3 hardware ticks the device has halted autonomously with no stop
call; yet isScheduleRunning still returns true, because it reads the stale
host-local register cache, not a live device status register, refuting the
claim that it subsequently returns false for that reason. -/
theorem C5_counterexample :
    AnalogOut.isScheduleRunning (DPxUpdateRegCache countdownRun) = true
      ∧ (dacTicks 3 (DPxUpdateRegCache countdownRun)).device.running = false
      ∧ AnalogOut.isScheduleRunning (dacTicks 3 (DPxUpdateRegCache countdownRun))
          = true := by
  decide

/-- C5 amended: for every running countdown schedule with device counter
n > 0, after n hardware ticks the device halts autonomously with no stop
call; isScheduleRunning reflects the halt only once the host register
cache is refreshed by DPxUpdateRegCache, after which it returns false. -/
theorem C5_countdown_halt_cache_refresh (s : Sys) (n : Nat)
    (hr : s.device.running = true) (hc : s.device.schedCountdown = true)
    (hn : s.device.schedCount = n) (h0 : 0 < n) :
    (dacTicks n s).device.running = false
      ∧ AnalogOut.isScheduleRunning (DPxUpdateRegCache (dacTicks n s)) = false := by
  obtain ⟨m, rfl⟩ : ∃ m, n = m + 1 := ⟨n - 1, (Nat.succ_pred_eq_of_pos h0).symm⟩
  have h := dacTicks_halt m s hr hc hn
  refine ⟨h, ?_⟩
  simp [AnalogOut.isScheduleRunning, DPxIsDacSchedRunning, DPxUpdateRegCache,
        pushRegs, h]

/-- C5 witness: instantiation of the amended claim at the concrete
countdown scenario with count 3. -/
theorem C5_countdown_halt_cache_refresh_witness :
    (DPxUpdateRegCache countdownRun).device.running = true
      ∧ (DPxUpdateRegCache countdownRun).device.schedCountdown = true
      ∧ (DPxUpdateRegCache countdownRun).device.schedCount = 3
      ∧ 0 < 3
      ∧ ((dacTicks 3 (DPxUpdateRegCache countdownRun)).device.running = false
          ∧ AnalogOut.isScheduleRunning
              (DPxUpdateRegCache (dacTicks 3 (DPxUpdateRegCache countdownRun)))
            = false) :=
  ⟨by decide, by decide, by decide, by decide,
   C5_countdown_halt_cache_refresh (DPxUpdateRegCache countdownRun) 3
     (by decide) (by decide) (by decide) (by decide)⟩

/-- C8: the claim says no interleaving of two threads running the
select-then-operate sequence has thread A operating while persona B is
selected.  Counterexample: the schedule in which both selects run before
either operate is an interleaving of the two thread programs, and in it the
operate of thread A (tag false, persona code 10) executes while persona
code 40 of thread B is selected; nothing in dpxDevice.py serializes the
two steps. -/
theorem C8_counterexample :
    Interleave (threadProg false 10) (threadProg true 40)
        [(false, LinkOp.select 10), (true, LinkOp.select 40),
         (false, LinkOp.operate), (true, LinkOp.operate)]
      ∧ (false, 40) ∈ runSched
          [(false, LinkOp.select 10), (true, LinkOp.select 40),
           (false, LinkOp.operate), (true, LinkOp.operate)] 0 := by
  constructor
  · exact Interleave.left (Interleave.right (Interleave.left
      (Interleave.right Interleave.nil)))
  · decide

/-- C8 amended: the select-then-operate sequences of dpxDevice.py take no
lock, so the two steps are not atomic: there exists an interleaving of two
threads running them in which thread A (tag false, selecting persona code
10) performs its operate step while persona code 40 selected by thread B is
current on the link. -/
theorem C8_interference_interleaving_exists :
    ∃ sched, Interleave (threadProg false 10) (threadProg true 40) sched
      ∧ (false, 40) ∈ runSched sched 0 :=
  ⟨[(false, LinkOp.select 10), (true, LinkOp.select 40),
    (false, LinkOp.operate), (true, LinkOp.operate)],
   Interleave.left (Interleave.right (Interleave.left
     (Interleave.right Interleave.nil))),
   by decide⟩
